import Mathlib

/-!
# Sales Value Matrix dashboard — verification of the scoring/classification core

Shallow embedding of the data-processing functions of
`sales_value_matrix_master.py` (the interactive analytics dashboard):

* `detectValueColumns` embeds the boolean-like ("value") column detection of
  `process_uploaded_data` (lines 45–53);
* `process_data` embeds the scoring / engagement-mapping / quadrant
  classification of `process_data` (lines 60–114).

Modelling conventions:

* A pandas cell is `Cell`: a string, a natural number (the derived numeric
  columns), or the missing value NaN (`Cell.na`).  `pyStr` is pandas
  `astype(str)`, which renders NaN as the string "nan".
* A row is an association list from column name to cell; pandas column
  assignment (`df[c] = v`) replaces an existing column in place and appends a
  new column at the end, which is exactly what `setCell` does.
* Python's `str.strip()`/`str.lower()` are `pyTrim`/`pyLower`, character-list
  functions built on `Char.isWhitespace`/`Char.toLower` (all vocabulary
  constants involved are ASCII).
* The float constant `0.65` and the float comparisons of the quadrant rule are
  modelled in exact rational arithmetic (`ℚ`); for the integer scores and the
  column counts that occur here the IEEE-double comparisons of the source
  agree with the exact ones.
* `np.select(conditions, choices, default)` is `npSelect`: the choice of the
  first true condition, else the default.
-/

namespace SVM

/-- One cell of the uploaded table: a string, a (derived) number, or NaN. -/
inductive Cell where
  | s (v : String)
  | n (v : Nat)
  | na
deriving DecidableEq, Repr

/-- pandas `astype(str)` on one cell: NaN renders as the string "nan". -/
def pyStr : Cell → String
  | .s v => v
  | .n v => toString v
  | .na => "nan"

/-- A row of the data frame: association list from column name to cell. -/
abbrev Rec := List (String × Cell)

/-- The uploaded table: the ordered column names, and the rows. -/
structure DataFrame where
  cols : List String
  rows : List Rec
deriving DecidableEq, Repr

/-- Read one cell of a row (missing column reads as NaN). -/
def getCell (r : Rec) (c : String) : Cell :=
  match r.lookup c with
  | some v => v
  | none => .na

/-- pandas column assignment `df[c] = v` on one row: replace the column in
place if present, else append it at the end. -/
def setCell : Rec → String → Cell → Rec
  | [], c, v => [(c, v)]
  | (k, w) :: rest, c, v =>
      if k = c then (c, v) :: rest else (k, w) :: setCell rest c v

/-- Effect of a pandas column assignment on the ordered column list. -/
def appendCol (cols : List String) (c : String) : List String :=
  if c ∈ cols then cols else cols ++ [c]

/-- Contiguous-sublist test on character lists. -/
def containsSub (needle : List Char) : List Char → Bool
  | [] => needle.isPrefixOf []
  | h :: t => needle.isPrefixOf (h :: t) || containsSub needle t

/-- Python's substring test `needle in hay`. -/
def pyContains (needle hay : String) : Bool :=
  containsSub needle.data hay.data

/-- Python `str.strip()`: drop leading and trailing whitespace. -/
def pyTrim (s : String) : String :=
  ⟨((s.data.dropWhile Char.isWhitespace).reverse.dropWhile Char.isWhitespace).reverse⟩

/-- Python `str.lower()` (ASCII; all vocabulary and key strings are ASCII). -/
def pyLower (s : String) : String :=
  ⟨s.data.map Char.toLower⟩

/-- Python `x.strip().lower()`. -/
def cleanLower (x : String) : String :=
  pyLower (pyTrim x)

/-- The fixed boolean vocabulary of the column detector (line 50). -/
def boolVocab : List String :=
  ["yes", "no", "y", "n", "1", "0", "true", "false"]

/-- The values of one column across all rows. -/
def column (df : DataFrame) (c : String) : List Cell :=
  df.rows.map (fun r => getCell r c)

/-- pandas `Series.dropna()`: discard the missing values. -/
def dropna (vals : List Cell) : List Cell :=
  vals.filter (fun v => v ≠ .na)

/-- Line 49–50 of `process_uploaded_data`: after dropping NaNs, every value of
the column, stripped and lowercased, lies in the fixed boolean vocabulary.
(The source tests the distinct values via `.unique()`; `all` over the
distinct values equals `all` over the column.) -/
def isValueColumn (df : DataFrame) (c : String) : Bool :=
  (dropna (column df c)).all (fun v => boolVocab.contains (cleanLower (pyStr v)))

/-- Lines 45–53 of `process_uploaded_data`: the columns flagged as
boolean-like "value columns", in column order. -/
def detectValueColumns (df : DataFrame) : List String :=
  df.cols.filter (fun c => isValueColumn df c)

/-- The yes-vocabulary of the normalizer (line 64). -/
def yesVocab : List String := ["yes", "y", "1", "true"]

/-- Line 64: a stripped, lowercased value is canonicalized to "Yes" when it is
in the yes-vocabulary and to "No" otherwise. -/
def normalizeYesNo (x : String) : String :=
  if yesVocab.contains x then "Yes" else "No"

/-- Lines 62–64 of `process_data`: strip, lowercase and canonicalize every
value column of the row. -/
def normalizeRow (value_columns : List String) (r : Rec) : Rec :=
  value_columns.foldl
    (fun acc c => setCell acc c (.s (normalizeYesNo (cleanLower (pyStr (getCell acc c)))))) r

/-- The scoring dictionary `{'Yes': 1, 'No': 0}` of line 67. -/
def yesNoScore : List (String × Nat) := [("Yes", 1), ("No", 0)]

/-- Line 67: the Value Score of a (normalized) row, the row sum of the mapped
value columns (a value missing from the dictionary contributes nothing,
like NaN in a pandas sum). -/
def valueScore (value_columns : List String) (r : Rec) : Nat :=
  (value_columns.map (fun c => (yesNoScore.lookup (pyStr (getCell r c))).getD 0)).sum

/-- The engagement lookup table of lines 71–77, with its capitalized keys. -/
def engagement_map : List (String × Nat) :=
  [("Untouched", 0), ("Freemium", 1), ("Da-direct", 2),
   ("Orders 360 lite", 3), ("Orders 360 full", 4)]

/-- Lines 80–84: the first column whose lowercased name contains "stage" or
"subscription". -/
def findStageCol (cols : List String) : Option String :=
  cols.find? (fun c => pyContains "stage" (pyLower c) || pyContains "subscription" (pyLower c))

/-- `np.select(conditions, choices, default)`: the choice of the first true
condition, else the default. -/
def npSelect : List Bool → List String → String → String
  | b :: bs, v :: vs, d => if b then v else npSelect bs vs d
  | _, _, d => d

/-- The four quadrant conditions of lines 97–102, in source order, in exact
rational arithmetic: `value_threshold = max_score * 0.65` is the rational
`65 * max_score / 100` (see `value_threshold_eq`), and
`engagement_threshold = 2.0`. -/
def conditions (vs lvl : Nat) (max_score : Nat) : List Bool :=
  let value_threshold : ℚ := mkRat (65 * max_score) 100
  let engagement_threshold : ℚ := 2
  [decide ((vs : ℚ) ≥ value_threshold) && decide ((lvl : ℚ) ≥ engagement_threshold),
   decide ((vs : ℚ) < value_threshold) && decide ((lvl : ℚ) ≥ engagement_threshold),
   decide ((vs : ℚ) ≥ value_threshold) && decide ((lvl : ℚ) < engagement_threshold),
   decide ((vs : ℚ) < value_threshold) && decide ((lvl : ℚ) < engagement_threshold)]

/-- The quadrant labels of lines 104–109, in source order. -/
def quadrants : List String :=
  ["Strategic Partners", "Growth Opportunities", "High Value Prospects", "Basic Users"]

/-- Line 111: `np.select(conditions, quadrants, default='Unclassified')` for
one row. -/
def quadrantOf (vs lvl : Nat) (max_score : Nat) : String :=
  npSelect (conditions vs lvl max_score) quadrants "Unclassified"

/-- Lines 62–112 of `process_data` restricted to one row: normalize the value
columns, compute the Value Score, lowercase the stage column in place and map
it through `engagement_map` (unmapped values fall back to 0, line 89's
`fillna(0)`), classify the quadrant, and append the derived columns in source
order (Value Score, Engagement Level, Quadrant, Size). -/
def processRow (value_columns : List String) (stage_col : Option String)
    (max_score : Nat) (r : Rec) : Rec :=
  let r1 := normalizeRow value_columns r
  let vs := valueScore value_columns r1
  let r2 := match stage_col with
    | some sc => setCell r1 sc (.s (cleanLower (pyStr (getCell r1 sc))))
    | none => r1
  let lvl : Nat := match stage_col with
    | some sc => (engagement_map.lookup (pyStr (getCell r2 sc))).getD 0
    | none => 0
  let r3 := setCell r2 "Value Score" (.n vs)
  let r4 := setCell r3 "Engagement Level" (.n lvl)
  let r5 := setCell r4 "Quadrant" (.s (quadrantOf vs lvl max_score))
  setCell r5 "Size" (.n (vs * 8 + 20))

/-- Lines 60–114: `process_data(df, value_columns)`.  All the column
operations of the source are elementwise, so the frame-level function is the
row map of `processRow`; `max_score = len(value_columns)` (line 68) is
returned alongside the augmented frame. -/
def process_data (df : DataFrame) (value_columns : List String) : DataFrame × Nat :=
  let max_score := value_columns.length
  let stage_col := findStageCol df.cols
  let newCols :=
    appendCol (appendCol (appendCol (appendCol df.cols "Value Score")
      "Engagement Level") "Quadrant") "Size"
  (⟨newCols, df.rows.map (processRow value_columns stage_col max_score)⟩, max_score)

/-- The derived columns appended by `process_data`, in assignment order. -/
def derivedCols : List String := ["Value Score", "Engagement Level", "Quadrant", "Size"]

/-- The count of value columns of a row whose raw value lies in the
yes-vocabulary after stripping and lowercasing. -/
def yesCount (value_columns : List String) (r : Rec) : Nat :=
  value_columns.countP (fun c => yesVocab.contains (cleanLower (pyStr (getCell r c))))

/-! ## Spec-side definitions

These two definitions are written from the specification's words, to be
compared against the definitions above, which are written from the source. -/

/-- The quadrant rule exactly as §4.4 of the spec words it: thresholds
`valueThreshold = MaxScore * 0.65` and `engagementThreshold = 2`, four
mutually exclusive predicates evaluated in the given priority order, with the
defensive "Unclassified" fallback. -/
def specQuadrant (valueScore engagementLevel maxScore : ℚ) : String :=
  if valueScore ≥ maxScore * (65 / 100) ∧ engagementLevel ≥ 2 then "Strategic Partners"
  else if valueScore < maxScore * (65 / 100) ∧ engagementLevel ≥ 2 then "Growth Opportunities"
  else if valueScore ≥ maxScore * (65 / 100) ∧ engagementLevel < 2 then "High Value Prospects"
  else if valueScore < maxScore * (65 / 100) ∧ engagementLevel < 2 then "Basic Users"
  else "Unclassified"

/-- Boolean-likeness as §4.1 of the spec words it, including its edge case:
at least one non-missing value observed, and every non-missing value, after
trimming and lowercasing, a member of the fixed vocabulary. -/
def specIsBooleanLike (df : DataFrame) (c : String) : Bool :=
  !(dropna (column df c)).isEmpty &&
    (dropna (column df c)).all (fun v => boolVocab.contains (cleanLower (pyStr v)))

/-- A one-row data frame whose single boolean-like column is named
"Quadrant", colliding with a derived column name. -/
def collideDF : DataFrame := ⟨["Quadrant"], [[("Quadrant", Cell.s "yes")]]⟩

/-- A one-row data frame with one boolean-like column, for concrete witnesses. -/
def simpleDF : DataFrame := ⟨["F"], [[("F", Cell.s "yes")]]⟩

/-- The row `process_data` produces from the single row of `simpleDF`. -/
def simpleRow : Rec :=
  [("F", Cell.s "Yes"), ("Value Score", Cell.n 1), ("Engagement Level", Cell.n 0),
   ("Quadrant", Cell.s "High Value Prospects"), ("Size", Cell.n 28)]

/-! ## Helper lemmas about the embedding -/

/-- The rational value threshold is exactly `max_score * 0.65`. -/
theorem value_threshold_eq (m : Nat) : mkRat (65 * m) 100 = (m : ℚ) * (65 / 100) := by
  rw [Rat.mkRat_eq_div]
  push_cast
  ring

theorem getCell_setCell_self (r : Rec) (c : String) (v : Cell) :
    getCell (setCell r c v) c = v := by
  induction r with
  | nil => simp [setCell, getCell, List.lookup]
  | cons kv rest ih =>
    obtain ⟨k, w⟩ := kv
    by_cases h : k = c
    · subst h
      simp [setCell, getCell, List.lookup]
    · have hbeq : (c == k) = false := beq_eq_false_iff_ne.mpr (Ne.symm h)
      simpa [setCell, h, getCell, List.lookup, hbeq] using ih

theorem getCell_setCell_ne (r : Rec) {c c' : String} (h : c ≠ c') (v : Cell) :
    getCell (setCell r c v) c' = getCell r c' := by
  induction r with
  | nil =>
    have hbeq : (c' == c) = false := beq_eq_false_iff_ne.mpr (Ne.symm h)
    simp [setCell, getCell, List.lookup, hbeq]
  | cons kv rest ih =>
    obtain ⟨k, w⟩ := kv
    by_cases hk : k = c
    · subst hk
      have hbeq : (c' == k) = false := beq_eq_false_iff_ne.mpr (Ne.symm h)
      simp [setCell, getCell, List.lookup, hbeq]
    · by_cases hk' : c' = k
      · subst hk'
        simp [setCell, hk, getCell, List.lookup]
      · have hbeq : (c' == k) = false := beq_eq_false_iff_ne.mpr hk'
        simpa [setCell, hk, getCell, List.lookup, hbeq] using ih

theorem sum_boole_eq_countP {α : Type} (p : α → Bool) (l : List α) :
    (l.map (fun a => if p a then 1 else 0)).sum = l.countP p := by
  induction l with
  | nil => simp
  | cons a l ih =>
    by_cases h : p a
    · simp [List.countP_cons, h, ih]
      omega
    · simp [List.countP_cons, h, ih]

/-- The canonical value is one of "Yes" and "No". -/
theorem normalizeYesNo_mem (x : String) :
    normalizeYesNo x = "Yes" ∨ normalizeYesNo x = "No" := by
  unfold normalizeYesNo
  split <;> simp

/-- Re-normalizing a canonical Yes/No value is the identity. -/
theorem normalize_stable (y : String) :
    normalizeYesNo (cleanLower (normalizeYesNo y)) = normalizeYesNo y := by
  rcases normalizeYesNo_mem y with h | h <;> rw [h] <;> decide

/-- The cell a normalized row holds at each column. -/
theorem getCell_normalizeRow (cols : List String) (r : Rec) (c : String) :
    getCell (normalizeRow cols r) c =
      if c ∈ cols then .s (normalizeYesNo (cleanLower (pyStr (getCell r c))))
      else getCell r c := by
  induction cols generalizing r with
  | nil => simp [normalizeRow]
  | cons c0 rest ih =>
    have hstep : normalizeRow (c0 :: rest) r =
        normalizeRow rest
          (setCell r c0 (.s (normalizeYesNo (cleanLower (pyStr (getCell r c0)))))) := rfl
    rw [hstep, ih]
    by_cases hc : c = c0
    · subst hc
      by_cases hmem : c ∈ rest
      · simp [hmem, getCell_setCell_self, pyStr, normalize_stable]
      · simp [hmem, getCell_setCell_self]
    · have hne : c0 ≠ c := Ne.symm hc
      by_cases hmem : c ∈ rest
      · simp [hmem, hc, getCell_setCell_ne _ hne]
      · simp [hmem, hc, getCell_setCell_ne _ hne]

/-- The Value Score of a normalized row counts the raw values in the
yes-vocabulary. -/
theorem valueScore_normalizeRow (cols : List String) (r : Rec) :
    valueScore cols (normalizeRow cols r) =
      cols.countP (fun c => yesVocab.contains (cleanLower (pyStr (getCell r c)))) := by
  unfold valueScore
  rw [List.map_congr_left (g := fun c =>
      if yesVocab.contains (cleanLower (pyStr (getCell r c))) then 1 else 0)]
  · exact sum_boole_eq_countP _ cols
  · intro c hc
    rw [getCell_normalizeRow, if_pos hc]
    unfold normalizeYesNo
    split <;> simp [pyStr, yesNoScore, List.lookup, *]

/-- Reading a column after a pandas column assignment. -/
theorem getCell_setCell (r : Rec) (c c' : String) (v : Cell) :
    getCell (setCell r c v) c' = if c = c' then v else getCell r c' := by
  by_cases h : c = c'
  · subst h
    simp [getCell_setCell_self]
  · simp [h, getCell_setCell_ne r h v]

/-- `Char.toLower` never yields a basic-latin capital letter. -/
theorem toLower_not_upper (c : Char) :
    ¬(65 ≤ (Char.toLower c).toNat ∧ (Char.toLower c).toNat ≤ 90) := by
  simp only [Char.toLower]
  split
  next h =>
    have hv : (c.toNat + 32).isValidChar := Or.inl (by omega)
    rw [Char.ofNat, dif_pos hv]
    have : (Char.ofNatAux (c.toNat + 32) hv).toNat = c.toNat + 32 := rfl
    omega
  next h =>
    omega

/-- A lowercased string never equals a string whose first character is a
basic-latin capital letter. -/
theorem pyLower_ne_of_head_upper (s k : String) (c : Char)
    (hk : k.data.head? = some c) (h1 : 65 ≤ c.toNat) (h2 : c.toNat ≤ 90) :
    pyLower s ≠ k := by
  intro h
  have hd : s.data.map Char.toLower = k.data := congrArg String.data h
  rw [← hd, List.head?_map] at hk
  cases hopt : s.data.head? with
  | none => rw [hopt] at hk; simp at hk
  | some a =>
    rw [hopt] at hk
    simp only [Option.map_some', Option.some.injEq] at hk
    exact toLower_not_upper a (by rw [hk]; exact ⟨h1, h2⟩)

/-- The engagement lookup misses every stripped-and-lowercased value, because
all of its keys start with a capital letter (the source lowercases the stage
value on line 88 but the keys of lines 71–77 are capitalized). -/
theorem lookup_engagement_cleanLower (x : String) :
    engagement_map.lookup (cleanLower x) = none := by
  have h1 : cleanLower x ≠ "Untouched" :=
    pyLower_ne_of_head_upper _ _ 'U' (by decide) (by decide) (by decide)
  have h2 : cleanLower x ≠ "Freemium" :=
    pyLower_ne_of_head_upper _ _ 'F' (by decide) (by decide) (by decide)
  have h3 : cleanLower x ≠ "Da-direct" :=
    pyLower_ne_of_head_upper _ _ 'D' (by decide) (by decide) (by decide)
  have h4 : cleanLower x ≠ "Orders 360 lite" :=
    pyLower_ne_of_head_upper _ _ 'O' (by decide) (by decide) (by decide)
  have h5 : cleanLower x ≠ "Orders 360 full" :=
    pyLower_ne_of_head_upper _ _ 'O' (by decide) (by decide) (by decide)
  simp [engagement_map, List.lookup,
    beq_eq_false_iff_ne.mpr h1, beq_eq_false_iff_ne.mpr h2, beq_eq_false_iff_ne.mpr h3,
    beq_eq_false_iff_ne.mpr h4, beq_eq_false_iff_ne.mpr h5]

theorem processRow_valueScore (vc : List String) (stage : Option String) (m : Nat) (r : Rec) :
    getCell (processRow vc stage m r) "Value Score" = .n (yesCount vc r) := by
  cases stage <;>
    simp [processRow, yesCount, getCell_setCell, valueScore_normalizeRow, pyStr,
      lookup_engagement_cleanLower]

theorem processRow_engagement (vc : List String) (stage : Option String) (m : Nat) (r : Rec) :
    getCell (processRow vc stage m r) "Engagement Level" = .n 0 := by
  cases stage <;>
    simp [processRow, getCell_setCell, pyStr, lookup_engagement_cleanLower]

theorem processRow_quadrant (vc : List String) (stage : Option String) (m : Nat) (r : Rec) :
    getCell (processRow vc stage m r) "Quadrant" = .s (quadrantOf (yesCount vc r) 0 m) := by
  cases stage <;>
    simp [processRow, yesCount, getCell_setCell, valueScore_normalizeRow, pyStr,
      lookup_engagement_cleanLower]

theorem processRow_size (vc : List String) (stage : Option String) (m : Nat) (r : Rec) :
    getCell (processRow vc stage m r) "Size" = .n (yesCount vc r * 8 + 20) := by
  cases stage <;>
    simp [processRow, yesCount, getCell_setCell, valueScore_normalizeRow, pyStr,
      lookup_engagement_cleanLower]

/-- Frame property of one processed row: a column that is not a value column,
not the stage column and not one of the derived columns is untouched. -/
theorem processRow_frame (vc : List String) (stage : Option String) (m : Nat) (r : Rec)
    (c : String) (hvc : c ∉ vc) (hstage : stage ≠ some c) (hd : c ∉ derivedCols) :
    getCell (processRow vc stage m r) c = getCell r c := by
  simp only [derivedCols, List.mem_cons, List.not_mem_nil, or_false, not_or] at hd
  obtain ⟨hd1, hd2, hd3, hd4⟩ := hd
  cases stage with
  | none =>
    simp [processRow, getCell_setCell, Ne.symm hd1, Ne.symm hd2, Ne.symm hd3, Ne.symm hd4,
      getCell_normalizeRow, hvc]
  | some sc =>
    have hsc : sc ≠ c := by
      intro h
      exact hstage (by rw [h])
    simp [processRow, getCell_setCell, Ne.symm hd1, Ne.symm hd2, Ne.symm hd3, Ne.symm hd4,
      hsc, getCell_normalizeRow, hvc]

/-- The stage column of one processed row holds the stripped, lowercased
value of the (already normalized) row. -/
theorem processRow_stage (vc : List String) (m : Nat) (r : Rec) (sc : String)
    (hd : sc ∉ derivedCols) :
    getCell (processRow vc (some sc) m r) sc =
      .s (cleanLower (pyStr (getCell (normalizeRow vc r) sc))) := by
  simp only [derivedCols, List.mem_cons, List.not_mem_nil, or_false, not_or] at hd
  obtain ⟨hd1, hd2, hd3, hd4⟩ := hd
  simp [processRow, getCell_setCell, Ne.symm hd1, Ne.symm hd2, Ne.symm hd3, Ne.symm hd4]

/-- The rows of `process_data` are the rows of the input, each processed. -/
theorem process_data_rows (df : DataFrame) (vc : List String) :
    (process_data df vc).1.rows =
      df.rows.map (processRow vc (findStageCol df.cols) vc.length) := rfl

/-- The second component of `process_data` is `len(value_columns)`. -/
theorem process_data_maxScore (df : DataFrame) (vc : List String) :
    (process_data df vc).2 = vc.length := rfl

/-- The value-score column of one processed row when it is one of the value
columns and not the stage column: the canonicalized Yes/No value. -/
theorem processRow_valueCol (vc : List String) (stage : Option String) (m : Nat) (r : Rec)
    (c : String) (hc : c ∈ vc) (hd : c ∉ derivedCols) (hsc : stage ≠ some c) :
    getCell (processRow vc stage m r) c =
      .s (normalizeYesNo (cleanLower (pyStr (getCell r c)))) := by
  simp only [derivedCols, List.mem_cons, List.not_mem_nil, or_false, not_or] at hd
  obtain ⟨hd1, hd2, hd3, hd4⟩ := hd
  cases stage with
  | none =>
    simp [processRow, getCell_setCell, Ne.symm hd1, Ne.symm hd2, Ne.symm hd3, Ne.symm hd4,
      getCell_normalizeRow, hc]
  | some sc =>
    have hsc' : sc ≠ c := by
      intro h
      exact hsc (by rw [h])
    simp [processRow, getCell_setCell, Ne.symm hd1, Ne.symm hd2, Ne.symm hd3, Ne.symm hd4,
      hsc', getCell_normalizeRow, hc]

/-- `np.select` of the quadrant conditions as the if-chain of §4.4. -/
theorem quadrantOf_eq (vs lvl m : Nat) :
    quadrantOf vs lvl m =
      if (vs : ℚ) ≥ mkRat (65 * m) 100 ∧ (lvl : ℚ) ≥ 2 then "Strategic Partners"
      else if (vs : ℚ) < mkRat (65 * m) 100 ∧ (lvl : ℚ) ≥ 2 then "Growth Opportunities"
      else if (vs : ℚ) ≥ mkRat (65 * m) 100 ∧ (lvl : ℚ) < 2 then "High Value Prospects"
      else "Basic Users" := by
  by_cases hv : (vs : ℚ) ≥ mkRat (65 * m) 100
  · by_cases hl : (lvl : ℚ) ≥ 2
    · simp [quadrantOf, conditions, npSelect, hv, hl, not_lt.mpr hv, not_lt.mpr hl]
    · simp [quadrantOf, conditions, npSelect, hv, hl, not_lt.mpr hv, not_le.mp hl]
  · by_cases hl : (lvl : ℚ) ≥ 2
    · simp [quadrantOf, conditions, npSelect, hv, hl, not_le.mp hv, not_lt.mpr hl]
    · simp [quadrantOf, conditions, npSelect, hv, hl, not_le.mp hv, not_le.mp hl]

/-- Exactly one of the four quadrant conditions is true, for every score,
level and max score (the comparisons are total). -/
theorem conditions_one_true (vs lvl m : Nat) :
    (conditions vs lvl m).countP id = 1 := by
  by_cases hv : (vs : ℚ) ≥ mkRat (65 * m) 100
  · by_cases hl : (lvl : ℚ) ≥ 2
    · simp [conditions, List.countP_cons, hv, hl, not_lt.mpr hv, not_lt.mpr hl]
    · simp [conditions, List.countP_cons, hv, hl, not_lt.mpr hv, not_le.mp hl]
  · by_cases hl : (lvl : ℚ) ≥ 2
    · simp [conditions, List.countP_cons, hv, hl, not_le.mp hv, not_lt.mpr hl]
    · simp [conditions, List.countP_cons, hv, hl, not_le.mp hv, not_le.mp hl]

/-- The classifier only ever emits the four primary labels: the defensive
default is unreachable for every input. -/
theorem quadrantOf_mem (vs lvl m : Nat) : quadrantOf vs lvl m ∈ quadrants := by
  rw [quadrantOf_eq]
  by_cases hv : (vs : ℚ) ≥ mkRat (65 * m) 100 <;> by_cases hl : (lvl : ℚ) ≥ 2 <;>
    simp [quadrants, hv, hl, not_le.mp, *]

/-- With engagement level 0 the classifier emits one of the two low-engagement
labels. -/
theorem quadrantOf_lvl_zero (vs m : Nat) :
    quadrantOf vs 0 m = "High Value Prospects" ∨ quadrantOf vs 0 m = "Basic Users" := by
  rw [quadrantOf_eq]
  have h2 : ¬ (((0 : Nat) : ℚ) ≥ 2) := by norm_num
  have h3 : (((0 : Nat) : ℚ) < 2) := by norm_num
  by_cases hv : (vs : ℚ) ≥ mkRat (65 * m) 100
  · left
    rw [if_neg (fun hcon => h2 hcon.2), if_neg (fun hcon => h2 hcon.2), if_pos ⟨hv, h3⟩]
  · right
    rw [if_neg (fun hcon => h2 hcon.2), if_neg (fun hcon => h2 hcon.2),
      if_neg (fun hcon => hv hcon.1)]

/-- Appending a column whose name does not match the stage heuristic does not
change the detected stage column. -/
theorem findStageCol_appendCol (cols : List String) (x : String)
    (hx : (pyContains "stage" (pyLower x) || pyContains "subscription" (pyLower x)) = false) :
    findStageCol (appendCol cols x) = findStageCol cols := by
  unfold appendCol
  split
  · rfl
  · unfold findStageCol
    rw [List.find?_append]
    simp [List.find?, hx, Option.or_none]

/-- The four derived column names do not match the stage heuristic, so stage
detection is stable across processing. -/
theorem findStageCol_process (cols : List String) :
    findStageCol (appendCol (appendCol (appendCol (appendCol cols "Value Score")
      "Engagement Level") "Quadrant") "Size") = findStageCol cols := by
  rw [findStageCol_appendCol _ _ (by decide), findStageCol_appendCol _ _ (by decide),
    findStageCol_appendCol _ _ (by decide), findStageCol_appendCol _ _ (by decide)]

theorem pyStr_s (v : String) : pyStr (.s v) = v := rfl

/-- Canonicalization preserves the yes-flag. -/
theorem contains_cleanLower_normalize (x : String) :
    yesVocab.contains (cleanLower (normalizeYesNo x)) = yesVocab.contains x := by
  unfold normalizeYesNo
  split
  next h => rw [h]; decide
  next h => rw [Bool.eq_false_iff.mpr h]; decide

/-- As `contains_cleanLower_normalize`, after a second lowercasing pass. -/
theorem contains_cleanLower_sq_normalize (x : String) :
    yesVocab.contains (cleanLower (cleanLower (normalizeYesNo x))) = yesVocab.contains x := by
  unfold normalizeYesNo
  split
  next h => rw [h]; decide
  next h => rw [Bool.eq_false_iff.mpr h]; decide

/-- The yes-flag of every value column survives one processing pass. -/
theorem yesFlag_processRow (vc : List String) (stage : Option String) (m : Nat) (r : Rec)
    (c : String) (hc : c ∈ vc) (hd : c ∉ derivedCols) :
    yesVocab.contains (cleanLower (pyStr (getCell (processRow vc stage m r) c))) =
      yesVocab.contains (cleanLower (pyStr (getCell r c))) := by
  by_cases hsc : stage = some c
  · subst hsc
    rw [processRow_stage vc m r c hd, getCell_normalizeRow, if_pos hc]
    simp only [pyStr_s]
    exact contains_cleanLower_sq_normalize _
  · rw [processRow_valueCol vc stage m r c hc hd hsc]
    simp only [pyStr_s]
    exact contains_cleanLower_normalize _

/-- The yes-count of every row survives one processing pass (provided no value
column shares its name with a derived column). -/
theorem yesCount_processRow (vc : List String) (stage : Option String) (m : Nat) (r : Rec)
    (hdisj : ∀ c ∈ vc, c ∉ derivedCols) :
    yesCount vc (processRow vc stage m r) = yesCount vc r := by
  unfold yesCount
  exact List.countP_congr (fun c hc => by rw [yesFlag_processRow vc stage m r c hc (hdisj c hc)])

/-- Re-processing leaves every value-column cell unchanged (provided no value
column shares its name with a derived column). -/
theorem processRow_reapply_valueCol (vc : List String) (stage : Option String) (m : Nat)
    (r : Rec) (c : String) (hc : c ∈ vc) (hd : c ∉ derivedCols) :
    getCell (processRow vc stage m (processRow vc stage m r)) c =
      getCell (processRow vc stage m r) c := by
  by_cases hsc : stage = some c
  · subst hsc
    have e1 : getCell (processRow vc (some c) m r) c =
        .s (cleanLower (normalizeYesNo (cleanLower (pyStr (getCell r c))))) := by
      rw [processRow_stage vc m r c hd, getCell_normalizeRow, if_pos hc]
      simp only [pyStr_s]
    have e2 : getCell (processRow vc (some c) m (processRow vc (some c) m r)) c =
        .s (cleanLower (normalizeYesNo
          (cleanLower (pyStr (getCell (processRow vc (some c) m r) c))))) := by
      rw [processRow_stage vc m _ c hd, getCell_normalizeRow, if_pos hc]
      simp only [pyStr_s]
    rw [e2, e1]
    simp only [pyStr_s]
    rcases normalizeYesNo_mem (cleanLower (pyStr (getCell r c))) with h | h <;>
      rw [h] <;> decide
  · rw [processRow_valueCol vc stage m _ c hc hd hsc, processRow_valueCol vc stage m r c hc hd hsc]
    simp only [pyStr_s]
    rw [normalize_stable]

/-! ## Claims -/

/-- C1: for every record with MaxScore > 0, the quadrant classifier evaluates
the four predicates over (ValueScore, valueThreshold = MaxScore * 0.65,
EngagementLevel, engagementThreshold = 2) in the fixed spec order and returns
the first match, and a record with ValueScore exactly equal to valueThreshold
is always classified on the high side (Strategic Partners or High Value
Prospects). -/
theorem claim_C1 (vs lvl m : Nat) (_hm : 0 < m) :
    quadrantOf vs lvl m = specQuadrant (vs : ℚ) (lvl : ℚ) (m : ℚ) ∧
    ((vs : ℚ) = (m : ℚ) * (65 / 100) →
      quadrantOf vs lvl m = "Strategic Partners" ∨
        quadrantOf vs lvl m = "High Value Prospects") := by
  have hth : mkRat (65 * m) 100 = (m : ℚ) * (65 / 100) := value_threshold_eq m
  constructor
  · rw [quadrantOf_eq, hth]
    unfold specQuadrant
    by_cases hv : (vs : ℚ) ≥ (m : ℚ) * (65 / 100)
    · by_cases hl : (lvl : ℚ) ≥ 2
      · rw [if_pos ⟨hv, hl⟩, if_pos ⟨hv, hl⟩]
      · have hl' : (lvl : ℚ) < 2 := not_le.mp hl
        rw [if_neg (fun hcon => hl hcon.2), if_neg (fun hcon => hl hcon.2),
          if_pos ⟨hv, hl'⟩, if_neg (fun hcon => hl hcon.2),
          if_neg (fun hcon => hl hcon.2), if_pos ⟨hv, hl'⟩]
    · have hv' : (vs : ℚ) < (m : ℚ) * (65 / 100) := not_le.mp hv
      by_cases hl : (lvl : ℚ) ≥ 2
      · rw [if_neg (fun hcon => hv hcon.1), if_pos ⟨hv', hl⟩,
          if_neg (fun hcon => hv hcon.1), if_pos ⟨hv', hl⟩]
      · have hl' : (lvl : ℚ) < 2 := not_le.mp hl
        rw [if_neg (fun hcon => hv hcon.1), if_neg (fun hcon => hl hcon.2),
          if_neg (fun hcon => hv hcon.1), if_neg (fun hcon => hv hcon.1),
          if_neg (fun hcon => hl hcon.2), if_neg (fun hcon => hv hcon.1),
          if_pos ⟨hv', hl'⟩]
  · intro hb
    rw [quadrantOf_eq]
    have hv : (vs : ℚ) ≥ mkRat (65 * m) 100 := by
      rw [hth]
      exact le_of_eq hb.symm
    by_cases hl : (lvl : ℚ) ≥ 2
    · left
      rw [if_pos ⟨hv, hl⟩]
    · right
      rw [if_neg (fun hcon => hl hcon.2), if_neg (fun hcon => hl hcon.2),
        if_pos ⟨hv, not_le.mp hl⟩]

/-- C1 witness: MaxScore 20 places the threshold at exactly 13; a record with
ValueScore 13 sits on the boundary and lands on the high side. -/
theorem claim_C1_witness :
    0 < 20 ∧
    (quadrantOf 13 0 20 = specQuadrant ((13 : Nat) : ℚ) ((0 : Nat) : ℚ) ((20 : Nat) : ℚ) ∧
      (((13 : Nat) : ℚ) = ((20 : Nat) : ℚ) * (65 / 100) →
        quadrantOf 13 0 20 = "Strategic Partners" ∨
          quadrantOf 13 0 20 = "High Value Prospects")) :=
  ⟨by decide, claim_C1 13 0 20 (by decide)⟩

/-- C2 (code bug): the engagement lookup is not case-insensitive — the code
lowercases the stage value but the table keys are capitalized, so "DA-DIRECT"
(and even the exactly-spelled key "Da-direct") yields Engagement Level 0, not
the 2 the claim requires. -/
theorem claim_C2_bug :
    getCell ((process_data ⟨["Stage"], [[("Stage", Cell.s "DA-DIRECT")]]⟩ []).1.rows.headI)
      "Engagement Level" = Cell.n 0 ∧
    getCell ((process_data ⟨["Stage"], [[("Stage", Cell.s "Da-direct")]]⟩ []).1.rows.headI)
      "Engagement Level" = Cell.n 0 ∧
    Cell.n 0 ≠ Cell.n 2 := by decide

/-- C3 counterexample: a dataset with MaxScore = 0 (no boolean-like columns)
does not classify its record "Unclassified"; the record gets
"High Value Prospects" (0 ≥ 0 · 0.65 and 0 < 2 — there is no MaxScore = 0
guard in the code). -/
theorem claim_C3_counterexample :
    (process_data ⟨["Agency"], [[("Agency", Cell.s "Acme")]]⟩ []).2 = 0 ∧
    getCell ((process_data ⟨["Agency"], [[("Agency", Cell.s "Acme")]]⟩ []).1.rows.headI)
      "Quadrant" = Cell.s "High Value Prospects" ∧
    Cell.s "High Value Prospects" ≠ Cell.s "Unclassified" := by decide

/-- C3 amended: when there are no boolean-like columns (MaxScore = 0), every
record's Quadrant is "High Value Prospects" — its Value Score 0 meets the
zero threshold and its Engagement Level is always below 2 — never
"Unclassified". -/
theorem claim_C3_amended (df : DataFrame) (r : Rec)
    (h : r ∈ (process_data df []).1.rows) :
    getCell r "Quadrant" = Cell.s "High Value Prospects" := by
  rw [process_data_rows] at h
  obtain ⟨r0, _, rfl⟩ := List.mem_map.mp h
  rw [processRow_quadrant]
  have hy : yesCount [] r0 = 0 := rfl
  rw [hy]
  decide

/-- C3 amended witness: the concrete MaxScore = 0 record of the
counterexample. -/
theorem claim_C3_amended_witness :
    getCell [("Agency", Cell.s "Acme"), ("Value Score", Cell.n 0),
      ("Engagement Level", Cell.n 0), ("Quadrant", Cell.s "High Value Prospects"),
      ("Size", Cell.n 20)] "Quadrant" = Cell.s "High Value Prospects" :=
  claim_C3_amended ⟨["Agency"], [[("Agency", Cell.s "Acme")]]⟩ _ (by decide)

/-- C4: for every dataset and every record, the Value Score is the count of
value columns whose stripped, lowercased raw value lies in
{yes, y, 1, true}, and it never exceeds MaxScore, the number of value
columns. -/
theorem claim_C4 (df : DataFrame) (vc : List String) (r : Rec) :
    (process_data df vc).1.rows =
      df.rows.map (processRow vc (findStageCol df.cols) vc.length) ∧
    getCell (processRow vc (findStageCol df.cols) vc.length r) "Value Score" =
      Cell.n (yesCount vc r) ∧
    yesCount vc r ≤ vc.length ∧
    (process_data df vc).2 = vc.length :=
  ⟨rfl, processRow_valueScore _ _ _ _, List.countP_le_length _, rfl⟩

/-- C5 (code bug): a field with no non-missing values at all is classified
boolean-like by the code (Python's vacuous `all`), although the spec demands
at least one non-empty value; the spec-side predicate rejects it.  The
vocabulary-violation half of the claim does hold: {"maybe", "yes"} is not
boolean-like. -/
theorem claim_C5_bug :
    detectValueColumns ⟨["F"], [[("F", Cell.na)]]⟩ = ["F"] ∧
    specIsBooleanLike ⟨["F"], [[("F", Cell.na)]]⟩ "F" = false ∧
    detectValueColumns ⟨["F"], [[("F", Cell.s "maybe")], [("F", Cell.s "yes")]]⟩ = [] := by
  decide

/-- C6: every assigned Quadrant is one of the five fixed labels, and when
MaxScore > 0 exactly one of the four primary conditions holds (the four
labels partition the records with no overlap) and the defensive
"Unclassified" default is unreachable. -/
theorem claim_C6 (vs lvl m : Nat) :
    quadrantOf vs lvl m ∈ ["Strategic Partners", "Growth Opportunities",
      "High Value Prospects", "Basic Users", "Unclassified"] ∧
    (0 < m →
      (conditions vs lvl m).countP id = 1 ∧ quadrantOf vs lvl m ≠ "Unclassified") := by
  have h4 := quadrantOf_mem vs lvl m
  constructor
  · simp only [quadrants, List.mem_cons, List.not_mem_nil, or_false] at h4
    simp only [List.mem_cons, List.not_mem_nil, or_false]
    tauto
  · intro _
    refine ⟨conditions_one_true vs lvl m, fun hcon => ?_⟩
    rw [hcon] at h4
    simp [quadrants] at h4

/-- C6 witness: a concrete record with MaxScore 1. -/
theorem claim_C6_witness :
    quadrantOf 1 3 1 ∈ ["Strategic Partners", "Growth Opportunities",
      "High Value Prospects", "Basic Users", "Unclassified"] ∧
    ((conditions 1 3 1).countP id = 1 ∧ quadrantOf 1 3 1 ≠ "Unclassified") :=
  ⟨(claim_C6 1 3 1).1, (claim_C6 1 3 1).2 (by decide)⟩

/-- C7 counterexample: on a dataset with no boolean-like columns — where the
claim demands an `InvalidDataset` error — the classifier (which has no error
path at all) returns an ordinary fully augmented dataset. -/
theorem claim_C7_counterexample :
    (process_data ⟨["Name"], [[("Name", Cell.s "Acme Corp")]]⟩ []).1.rows =
      [[("Name", Cell.s "Acme Corp"), ("Value Score", Cell.n 0),
        ("Engagement Level", Cell.n 0), ("Quadrant", Cell.s "High Value Prospects"),
        ("Size", Cell.n 20)]] := by decide

/-- C7 amended: the classifier raises no error at all — every record of every
dataset (empty or without boolean-like fields included) is fully augmented
with a Quadrant among the four primary labels; malformed raw values are
normalized to "No" and unmapped stage text yields level 0. -/
theorem claim_C7_amended (df : DataFrame) (vc : List String) (r : Rec)
    (h : r ∈ (process_data df vc).1.rows) (x : String)
    (hx : yesVocab.contains x = false) (t : String) :
    (∃ q, getCell r "Quadrant" = Cell.s q ∧ q ∈ quadrants) ∧
    normalizeYesNo x = "No" ∧
    (engagement_map.lookup (cleanLower t)).getD 0 = 0 := by
  refine ⟨?_, ?_, ?_⟩
  · rw [process_data_rows] at h
    obtain ⟨r0, _, rfl⟩ := List.mem_map.mp h
    rw [processRow_quadrant]
    exact ⟨_, rfl, quadrantOf_mem _ _ _⟩
  · unfold normalizeYesNo
    rw [hx]
    simp
  · rw [lookup_engagement_cleanLower]
    rfl

/-- C7 amended witness: the record of the counterexample dataset, the
malformed value "maybe", and the unmapped stage text "unknown-stage". -/
theorem claim_C7_amended_witness :
    (∃ q, getCell [("Name", Cell.s "Acme Corp"), ("Value Score", Cell.n 0),
      ("Engagement Level", Cell.n 0), ("Quadrant", Cell.s "High Value Prospects"),
      ("Size", Cell.n 20)] "Quadrant" = Cell.s q ∧ q ∈ quadrants) ∧
    normalizeYesNo "maybe" = "No" ∧
    (engagement_map.lookup (cleanLower "unknown-stage")).getD 0 = 0 :=
  claim_C7_amended ⟨["Name"], [[("Name", Cell.s "Acme Corp")]]⟩ [] _ (by decide)
    "maybe" (by decide) "unknown-stage"

/-- C8 counterexample: the classifier is not frame-preserving as claimed —
the free-text stage field is overwritten with its lowercased value, and a
fourth derived field "Size" is added beyond the three the claim allows. -/
theorem claim_C8_counterexample :
    getCell ((process_data ⟨["Stage", "F"],
        [[("Stage", Cell.s "DA-DIRECT"), ("F", Cell.s "yes")]]⟩ ["F"]).1.rows.headI)
      "Stage" = Cell.s "da-direct" ∧
    Cell.s "da-direct" ≠ Cell.s "DA-DIRECT" ∧
    getCell [("Stage", Cell.s "DA-DIRECT"), ("F", Cell.s "yes")] "Size" = Cell.na ∧
    getCell ((process_data ⟨["Stage", "F"],
        [[("Stage", Cell.s "DA-DIRECT"), ("F", Cell.s "yes")]]⟩ ["F"]).1.rows.headI)
      "Size" = Cell.n 28 := by decide

/-- C8 amended: a field that is not a value column, not the stage column and
not one of the four derived columns keeps its raw value; the stage column is
replaced by its stripped, lowercased value; the additions are Value Score,
Engagement Level, Quadrant and Size. -/
theorem claim_C8_amended (vc : List String) (stage : Option String) (m : Nat) (r : Rec)
    (c : String) (hvc : c ∉ vc) (hstage : stage ≠ some c) (hd : c ∉ derivedCols)
    (sc : String) (hsd : sc ∉ derivedCols) :
    getCell (processRow vc stage m r) c = getCell r c ∧
    getCell (processRow vc (some sc) m r) sc =
      Cell.s (cleanLower (pyStr (getCell (normalizeRow vc r) sc))) :=
  ⟨processRow_frame vc stage m r c hvc hstage hd, processRow_stage vc m r sc hsd⟩

/-- C8 amended witness: a concrete row with an untouched "Name" field and a
lowercased "Stage" field. -/
theorem claim_C8_amended_witness :
    getCell (processRow ["F"] (some "Stage") 1
        [("Name", Cell.s "Acme"), ("Stage", Cell.s "DA-DIRECT"), ("F", Cell.s "yes")])
      "Name" =
      getCell [("Name", Cell.s "Acme"), ("Stage", Cell.s "DA-DIRECT"), ("F", Cell.s "yes")]
        "Name" ∧
    getCell (processRow ["F"] (some "Stage") 1
        [("Name", Cell.s "Acme"), ("Stage", Cell.s "DA-DIRECT"), ("F", Cell.s "yes")])
      "Stage" =
      Cell.s (cleanLower (pyStr (getCell (normalizeRow ["F"]
        [("Name", Cell.s "Acme"), ("Stage", Cell.s "DA-DIRECT"), ("F", Cell.s "yes")])
        "Stage"))) :=
  claim_C8_amended ["F"] (some "Stage") 1 _ "Name" (by decide) (by decide) (by decide)
    "Stage" (by decide)

/-- C9 counterexample: re-applying the classifier to its own output is not
idempotent — with a boolean-like column named "Quadrant", the first pass
overwrites its Yes value with the quadrant label, so the second pass computes
Value Score 0 instead of 1 and Quadrant "Basic Users" instead of
"High Value Prospects". -/
theorem claim_C9_counterexample :
    getCell ((process_data collideDF ["Quadrant"]).1.rows.headI) "Value Score" = Cell.n 1 ∧
    getCell ((process_data (process_data collideDF ["Quadrant"]).1
      ["Quadrant"]).1.rows.headI) "Value Score" = Cell.n 0 ∧
    getCell ((process_data collideDF ["Quadrant"]).1.rows.headI) "Quadrant" =
      Cell.s "High Value Prospects" ∧
    getCell ((process_data (process_data collideDF ["Quadrant"]).1
      ["Quadrant"]).1.rows.headI) "Quadrant" = Cell.s "Basic Users" ∧
    Cell.n 1 ≠ Cell.n 0 := by decide

/-- C9 amended: provided no value column is named after one of the four
derived columns, re-applying the classifier to its own output yields the same
value-column cells, Value Scores, Engagement Levels, Quadrants (and Sizes and
MaxScore); the second pass re-detects the same stage column. -/
theorem claim_C9_amended (df : DataFrame) (vc : List String)
    (hdisj : ∀ c ∈ vc, c ∉ derivedCols) (r1 : Rec)
    (h : r1 ∈ (process_data df vc).1.rows) (c : String) (hc : c ∈ vc) :
    (process_data (process_data df vc).1 vc).1.rows =
      ((process_data df vc).1.rows).map (processRow vc (findStageCol df.cols) vc.length) ∧
    (process_data (process_data df vc).1 vc).2 = (process_data df vc).2 ∧
    getCell (processRow vc (findStageCol df.cols) vc.length r1) c = getCell r1 c ∧
    getCell (processRow vc (findStageCol df.cols) vc.length r1) "Value Score" =
      getCell r1 "Value Score" ∧
    getCell (processRow vc (findStageCol df.cols) vc.length r1) "Engagement Level" =
      getCell r1 "Engagement Level" ∧
    getCell (processRow vc (findStageCol df.cols) vc.length r1) "Quadrant" =
      getCell r1 "Quadrant" ∧
    getCell (processRow vc (findStageCol df.cols) vc.length r1) "Size" =
      getCell r1 "Size" := by
  rw [process_data_rows] at h
  obtain ⟨r0, _, rfl⟩ := List.mem_map.mp h
  have hcols : findStageCol (process_data df vc).1.cols = findStageCol df.cols :=
    findStageCol_process df.cols
  refine ⟨?_, rfl, ?_, ?_, ?_, ?_, ?_⟩
  · rw [process_data_rows, hcols]
  · exact processRow_reapply_valueCol vc _ vc.length r0 c hc (hdisj c hc)
  · rw [processRow_valueScore, processRow_valueScore,
      yesCount_processRow vc _ vc.length r0 hdisj]
  · rw [processRow_engagement, processRow_engagement]
  · rw [processRow_quadrant, processRow_quadrant,
      yesCount_processRow vc _ vc.length r0 hdisj]
  · rw [processRow_size, processRow_size, yesCount_processRow vc _ vc.length r0 hdisj]

/-- C9 amended witness: the one-row data frame `simpleDF`, whose processed row
is `simpleRow`, re-processed. -/
theorem claim_C9_amended_witness :
    (process_data (process_data simpleDF ["F"]).1 ["F"]).1.rows =
      ((process_data simpleDF ["F"]).1.rows).map
        (processRow ["F"] (findStageCol simpleDF.cols) (List.length ["F"])) ∧
    (process_data (process_data simpleDF ["F"]).1 ["F"]).2 =
      (process_data simpleDF ["F"]).2 ∧
    getCell (processRow ["F"] (findStageCol simpleDF.cols) (List.length ["F"]) simpleRow)
      "F" = getCell simpleRow "F" ∧
    getCell (processRow ["F"] (findStageCol simpleDF.cols) (List.length ["F"]) simpleRow)
      "Value Score" = getCell simpleRow "Value Score" ∧
    getCell (processRow ["F"] (findStageCol simpleDF.cols) (List.length ["F"]) simpleRow)
      "Engagement Level" = getCell simpleRow "Engagement Level" ∧
    getCell (processRow ["F"] (findStageCol simpleDF.cols) (List.length ["F"]) simpleRow)
      "Quadrant" = getCell simpleRow "Quadrant" ∧
    getCell (processRow ["F"] (findStageCol simpleDF.cols) (List.length ["F"]) simpleRow)
      "Size" = getCell simpleRow "Size" :=
  claim_C9_amended simpleDF ["F"] (by decide) simpleRow (by decide) "F" (by decide)

/-- C10 (implicit): the code assigns Engagement Level 0 to every record of
every dataset — the stage value is lowercased before lookup in a map with
capitalized keys — so no record is ever classified "Strategic Partners" or
"Growth Opportunities". -/
theorem claim_C10 (df : DataFrame) (vc : List String) (r : Rec)
    (h : r ∈ (process_data df vc).1.rows) :
    getCell r "Engagement Level" = Cell.n 0 ∧
    getCell r "Quadrant" ≠ Cell.s "Strategic Partners" ∧
    getCell r "Quadrant" ≠ Cell.s "Growth Opportunities" := by
  rw [process_data_rows] at h
  obtain ⟨r0, _, rfl⟩ := List.mem_map.mp h
  refine ⟨processRow_engagement _ _ _ _, ?_, ?_⟩
  · rw [processRow_quadrant]
    rcases quadrantOf_lvl_zero (yesCount vc r0) vc.length with h1 | h1 <;> simp [h1]
  · rw [processRow_quadrant]
    rcases quadrantOf_lvl_zero (yesCount vc r0) vc.length with h1 | h1 <;> simp [h1]

/-- C10 witness: a record whose stage field holds the exact vocabulary entry
"Orders 360 full" still gets Engagement Level 0. -/
theorem claim_C10_witness :
    getCell [("Stage", Cell.s "orders 360 full"), ("Value Score", Cell.n 0),
      ("Engagement Level", Cell.n 0), ("Quadrant", Cell.s "High Value Prospects"),
      ("Size", Cell.n 20)] "Engagement Level" = Cell.n 0 ∧
    getCell [("Stage", Cell.s "orders 360 full"), ("Value Score", Cell.n 0),
      ("Engagement Level", Cell.n 0), ("Quadrant", Cell.s "High Value Prospects"),
      ("Size", Cell.n 20)] "Quadrant" ≠ Cell.s "Strategic Partners" ∧
    getCell [("Stage", Cell.s "orders 360 full"), ("Value Score", Cell.n 0),
      ("Engagement Level", Cell.n 0), ("Quadrant", Cell.s "High Value Prospects"),
      ("Size", Cell.n 20)] "Quadrant" ≠ Cell.s "Growth Opportunities" :=
  claim_C10 ⟨["Stage"], [[("Stage", Cell.s "Orders 360 full")]]⟩ [] _ (by decide)

end SVM
